import Mathlib

/-
Verification of the historical data-replay subsystem of the backtester
repository, embedded shallowly from src/fundamental_layer/data.py
(classes HistoricCSVDataHandler and HistoricSQLDataHandler).

Modelling conventions:
* Timestamps (the parsed datetime / date index values) embed as Nat with the
  usual order; only their order and equality are ever used by the code.
* DataFrame cells are float64 values on which the code never computes
  (they are only copied around), so a cell embeds as Option Int, with
  none standing for NaN (produced by reindex at index values preceding a
  symbol's first raw observation).
* The event queue only ever receives MarketEvent objects from this module,
  so it embeds as a counter of how many events were put.
* Python dicts keyed by symbol embed as total functions Symbol -> _
  together with the key set, which after construction is exactly
  symbol_list; a KeyError on lookup corresponds to the symbol not being
  a member of symbol_list.
-/

namespace Backtester

/-- Symbols are plain strings (entries of symbol_list, keys of the
per-symbol dictionaries). -/
abbrev Symbol := String

/-- One scalar cell of a pandas DataFrame; none stands for NaN. -/
abbrev Val := Option Int

/-- One row of per-symbol data after the index column is split off: the
remaining column values in file/query order.  For the CSV handler
(data.py line 97, names after the datetime index): open, low, high,
close, volume, oi.  For the SQL handler (data.py lines 253-259, after
the date index): open, high, low, close, volume, price_change. -/
abbrev Row := List Val

/-- The 2nd CSV input column, named 'open' by read_csv (data.py 97): row position 0. -/
def csvOpenCol (r : Row) : Val := r.getD 0 none

/-- The 3rd CSV input column, named 'low' (data.py 97): row position 1. -/
def csvLowCol (r : Row) : Val := r.getD 1 none

/-- The 4th CSV input column, named 'high' (data.py 97): row position 2. -/
def csvHighCol (r : Row) : Val := r.getD 2 none

/-- The 5th CSV input column, named 'close' (data.py 98): row position 3. -/
def csvCloseCol (r : Row) : Val := r.getD 3 none

/-- The 6th CSV input column, named 'volume' (data.py 98): row position 4. -/
def csvVolumeCol (r : Row) : Val := r.getD 4 none

/-- The 7th CSV input column, named 'oi' (data.py 98): row position 5. -/
def csvOiCol (r : Row) : Val := r.getD 5 none

/-- The 2nd SQL query column, 'open' (data.py 254): row position 0. -/
def sqlOpenCol (r : Row) : Val := r.getD 0 none

/-- The 3rd SQL query column, 'high' (data.py 255): row position 1. -/
def sqlHighCol (r : Row) : Val := r.getD 1 none

/-- The 4th SQL query column, 'low' (data.py 256): row position 2. -/
def sqlLowCol (r : Row) : Val := r.getD 2 none

/-- The 5th SQL query column, 'close' (data.py 257): row position 3. -/
def sqlCloseCol (r : Row) : Val := r.getD 3 none

/-- The 6th SQL query column, 'volume' (data.py 258): row position 4. -/
def sqlVolumeCol (r : Row) : Val := r.getD 4 none

/-- The 7th SQL query column, 'price_change' (data.py 259): row position 5. -/
def sqlPriceChangeCol (r : Row) : Val := r.getD 5 none

/-- The bar tuple yielded by _get_new_bar in either handler (data.py
123-124 and 288-289): tuple([symbol, datetime, b[1][0], b[1][1],
b[1][2], b[1][3], b[1][4]]).  Slots p2..p6 are the five values copied
positionally from the row (the 7th input column, b[1][5], is dropped). -/
structure Bar where
  symbol : Symbol
  datetime : Nat
  p2 : Val
  p3 : Val
  p4 : Val
  p5 : Val
  p6 : Val
deriving DecidableEq

/-- The CSV handler documents its bar tuple layout as (symbol, datetime,
open, low, high, close, volume) (data.py 117-118); these accessors name
the tuple slots accordingly.  The open value is slot p2. -/
def Bar.csvOpenVal (b : Bar) : Val := b.p2

/-- The low value of a CSV bar: tuple slot p3 (data.py 117-118). -/
def Bar.csvLowVal (b : Bar) : Val := b.p3

/-- The high value of a CSV bar: tuple slot p4 (data.py 117-118). -/
def Bar.csvHighVal (b : Bar) : Val := b.p4

/-- The close value of a CSV bar: tuple slot p5 (data.py 117-118). -/
def Bar.csvCloseVal (b : Bar) : Val := b.p5

/-- The volume value of a CSV bar: tuple slot p6 (data.py 117-118). -/
def Bar.csvVolumeVal (b : Bar) : Val := b.p6

/-- HistoricCSVDataHandler._get_new_bar (data.py 115-124): builds the bar
tuple from a row of symbol_data by copying positions 0..4. -/
def csvMkBar (s : Symbol) (t : Nat) (r : Row) : Bar :=
  { symbol := s, datetime := t,
    p2 := r.getD 0 none, p3 := r.getD 1 none, p4 := r.getD 2 none,
    p5 := r.getD 3 none, p6 := r.getD 4 none }

/-- HistoricSQLDataHandler._get_new_bar (data.py 283-289): identical
positional copy of row positions 0..4 into the bar tuple. -/
def sqlMkBar (s : Symbol) (t : Nat) (r : Row) : Bar :=
  { symbol := s, datetime := t,
    p2 := r.getD 0 none, p3 := r.getD 1 none, p4 := r.getD 2 none,
    p5 := r.getD 3 none, p6 := r.getD 4 none }

/-- A row of NaNs in all six data columns, as DataFrame.reindex produces
at an index value preceding the symbol's first raw observation. -/
def nanRow : Row := [none, none, none, none, none, none]

/-- The most recent raw row at or before timestamp t.  Raw rows are
listed in ascending date order, as reindex(method='pad') requires a
monotonic index; if no raw row is at or before t the reindexed row is
all-NaN. -/
def lastLE (raw : List (Nat × Row)) (t : Nat) : Row :=
  match (raw.filter (fun p => p.1 ≤ t)).getLast? with
  | none => nanRow
  | some p => p.2

/-- DataFrame.reindex(index=idx, method='pad') (data.py 112-113, 277,
280): one output row per element of idx, in idx order, forward-filled
from the raw rows. -/
def reindexPad (raw : List (Nat × Row)) (idx : List Nat) : List (Nat × Row) :=
  idx.map (fun t => (t, lastLE raw t))

/-- comb_index as actually computed by _open_convert_csv_files (data.py
91-105) and _open_convert_database_data (data.py 251-269): comb_index is
set to the first symbol's raw index; for every later symbol the loop
evaluates comb_index.union(self.symbol_data[s].index) but never assigns
the result (pandas Index.union is pure and returns a new Index), so
comb_index keeps the first symbol's raw index. -/
def combIndex (symbol_list : List Symbol) (raw : Symbol → List (Nat × Row)) : List Nat :=
  match symbol_list with
  | [] => []
  | s :: _ => (raw s).map Prod.fst

/-- Insert a timestamp into an ascending duplicate-free list, keeping it
ascending and duplicate-free. -/
def insSorted (x : Nat) : List Nat → List Nat
  | [] => [x]
  | y :: ys => if x < y then x :: y :: ys else if x = y then y :: ys else y :: insSorted x ys

/-- Modelled from the spec, not from the code: "the post-alignment
Calendar is the sorted union of every symbol's raw timestamps".  Used
only to compare against combIndex, the calendar the code computes. -/
def unionCalendarSpec (symbol_list : List Symbol) (raw : Symbol → List (Nat × Row)) : List Nat :=
  ((symbol_list.map (fun s => (raw s).map Prod.fst)).flatten).foldr insSorted []

/-- The mutable state shared by both handlers: symbol_list; symbol_data,
holding per symbol the not-yet-consumed suffix of the aligned
(timestamp, row) sequence (the iterrows() iterator that update_bars
pulls from); latest_symbol_data, the bars delivered so far;
continue_backtest; and the number of MarketEvents put on the events
queue so far. -/
structure DHState where
  symbol_list : List Symbol
  symbol_data : Symbol → List (Nat × Row)
  latest_symbol_data : Symbol → List Bar
  continue_backtest : Bool
  events : Nat

/-- The bar(s) one update_bars call appends for a symbol whose remaining
aligned sequence is l: the head of l, made into a bar, or nothing when l
is exhausted. -/
def headBar (mk : Symbol → Nat → Row → Bar) (s : Symbol) : List (Nat × Row) → List Bar
  | [] => []
  | (t, r) :: _ => [mk s t r]

/-- One iteration of the for-loop body of update_bars (data.py 143-150
and 339-346) for symbol s: bar = self._get_new_bar(s).next() pulls the
next item of the shared iterator; StopIteration (empty remainder) sets
continue_backtest = False; otherwise the bar is appended to
latest_symbol_data[s] (the yielded bar is never None, so the guard
`if bar is not None` always passes). -/
def tickSym (mk : Symbol → Nat → Row → Bar) (acc : DHState) (s : Symbol) : DHState :=
  match acc.symbol_data s with
  | [] => { acc with continue_backtest := false }
  | (t, r) :: rest =>
      { acc with
        symbol_data := fun s2 => if s2 = s then rest else acc.symbol_data s2
        latest_symbol_data := fun s2 =>
          if s2 = s then acc.latest_symbol_data s2 ++ [mk s t r]
          else acc.latest_symbol_data s2 }

/-- update_bars (data.py 138-151 and 334-347; the two method bodies are
identical up to local variable names, differing only in which
_get_new_bar they call, passed here as mk): loop over symbol_list, then
unconditionally self.events.put(MarketEvent()). -/
def update_bars (mk : Symbol → Nat → Row → Bar) (st : DHState) : DHState :=
  let st2 := st.symbol_list.foldl (tickSym mk) st
  { st2 with events := st2.events + 1 }

/-- The Python slice bars_list[-N:] (data.py 136 and 318) for a Nat N:
since -0 == 0, N = 0 yields the whole list; otherwise the last N
elements (the whole list when N exceeds its length). -/
def pySliceLast (l : List Bar) (N : Nat) : List Bar :=
  if N = 0 then l else l.drop (l.length - N)

/-- The last N elements of l, under the N ≥ 1 reading of l[-N:]. -/
def lastN (l : List Bar) (N : Nat) : List Bar := l.drop (l.length - N)

/-- HistoricCSVDataHandler.get_latest_bars (data.py 126-136): looking up
latest_symbol_data[symbol] raises KeyError when symbol is not a key
(i.e. not in symbol_list); the handler catches it, prints a diagnostic
and falls through, returning None; otherwise it returns
bars_list[-N:]. -/
def csv_get_latest_bars (st : DHState) (symbol : Symbol) (N : Nat) : Option (List Bar) :=
  if symbol ∈ st.symbol_list then some (pySliceLast (st.latest_symbol_data symbol) N)
  else none

/-- The two KeyError messages raised by the SQL handler's query methods
(data.py 291-332): SymbolNotFound for "Symbol is not available in the
data set.", NotInitialized for "latest_symbol_data has not been
initialized.". -/
inductive QueryError where
  | SymbolNotFound
  | NotInitialized
deriving DecidableEq

/-- HistoricSQLDataHandler.get_latest_bar (data.py 291-303): KeyError
re-raised as SymbolNotFound for an unknown symbol; NotInitialized when
the symbol's buffer is empty; otherwise bars_list[-1], the last
delivered bar (getLast? is none exactly when the buffer is empty). -/
def sql_get_latest_bar (st : DHState) (symbol : Symbol) : Except QueryError Bar :=
  if symbol ∈ st.symbol_list then
    match (st.latest_symbol_data symbol).getLast? with
    | none => .error .NotInitialized
    | some b => .ok b
  else .error .SymbolNotFound

/-- HistoricSQLDataHandler.get_latest_bars (data.py 305-318): same error
cases as get_latest_bar, otherwise bars_list[-bars:]. -/
def sql_get_latest_bars (st : DHState) (symbol : Symbol) (bars : Nat) : Except QueryError (List Bar) :=
  if symbol ∈ st.symbol_list then
    if st.latest_symbol_data symbol = [] then .error .NotInitialized
    else .ok (pySliceLast (st.latest_symbol_data symbol) bars)
  else .error .SymbolNotFound

/-- HistoricSQLDataHandler.get_latest_bar_datetime (data.py 320-332):
same error cases, otherwise bars_list[-1][1], the datetime slot of the
last delivered bar. -/
def sql_get_latest_bar_datetime (st : DHState) (symbol : Symbol) : Except QueryError Nat :=
  if symbol ∈ st.symbol_list then
    match (st.latest_symbol_data symbol).getLast? with
    | none => .error .NotInitialized
    | some b => .ok b.datetime
  else .error .SymbolNotFound

/-- HistoricCSVDataHandler.__init__ and _open_convert_csv_files (data.py
60-113): raw maps each symbol to its parsed CSV contents as (date, row)
pairs in file order; every configured symbol's frame is reindexed onto
comb_index with forward-fill; latest_symbol_data starts empty for every
configured symbol; continue_backtest starts True.  events0 is the number
of events already on the queue the handler was given. -/
def csvInit (events0 : Nat) (symbol_list : List Symbol) (raw : Symbol → List (Nat × Row)) : DHState :=
  { symbol_list := symbol_list
    symbol_data := fun s =>
      if s ∈ symbol_list then reindexPad (raw s) (combIndex symbol_list raw) else []
    latest_symbol_data := fun _ => []
    continue_backtest := true
    events := events0 }

/-- HistoricSQLDataHandler.__init__ and _open_convert_database_data
(data.py 177-280): raw maps each symbol to the result of the per-symbol
query as (date, row) pairs; the construction is structurally identical
to the CSV one, including the comb_index computation. -/
def sqlInit (events0 : Nat) (symbol_list : List Symbol) (raw : Symbol → List (Nat × Row)) : DHState :=
  { symbol_list := symbol_list
    symbol_data := fun s =>
      if s ∈ symbol_list then reindexPad (raw s) (combIndex symbol_list raw) else []
    latest_symbol_data := fun _ => []
    continue_backtest := true
    events := events0 }

/-- all_data_dic (data.py 276-277): the aligned frame retained per
symbol, computed by the same reindex(method='pad') expression that feeds
the iterrows() cursor (data.py 279-280); never mutated afterwards. -/
def sql_all_data_dic (symbol_list : List Symbol) (raw : Symbol → List (Nat × Row)) :
    Symbol → List (Nat × Row) :=
  fun s => if s ∈ symbol_list then reindexPad (raw s) (combIndex symbol_list raw) else []

/-- tickSym leaves symbol_list unchanged. -/
theorem tickSym_symbol_list (mk : Symbol → Nat → Row → Bar) (acc : DHState) (s : Symbol) :
    (tickSym mk acc s).symbol_list = acc.symbol_list := by
  unfold tickSym
  cases h : acc.symbol_data s with
  | nil => rfl
  | cons p rest => cases p with | mk t r => rfl

/-- tickSym leaves the event counter unchanged. -/
theorem tickSym_events (mk : Symbol → Nat → Row → Bar) (acc : DHState) (s : Symbol) :
    (tickSym mk acc s).events = acc.events := by
  unfold tickSym
  cases h : acc.symbol_data s with
  | nil => rfl
  | cons p rest => cases p with | mk t r => rfl

/-- tickSym for symbol s does not touch another symbol's remaining data. -/
theorem tickSym_symbol_data_ne (mk : Symbol → Nat → Row → Bar) (acc : DHState)
    (s s2 : Symbol) (h : s2 ≠ s) :
    (tickSym mk acc s).symbol_data s2 = acc.symbol_data s2 := by
  unfold tickSym
  cases hd : acc.symbol_data s with
  | nil => rfl
  | cons p rest => cases p with | mk t r => simp [h]

/-- tickSym for symbol s does not touch another symbol's buffer. -/
theorem tickSym_latest_ne (mk : Symbol → Nat → Row → Bar) (acc : DHState)
    (s s2 : Symbol) (h : s2 ≠ s) :
    (tickSym mk acc s).latest_symbol_data s2 = acc.latest_symbol_data s2 := by
  unfold tickSym
  cases hd : acc.symbol_data s with
  | nil => rfl
  | cons p rest => cases p with | mk t r => simp [h]

/-- tickSym never resets continue_backtest to true. -/
theorem tickSym_cont_false (mk : Symbol → Nat → Row → Bar) (acc : DHState) (s : Symbol)
    (h : acc.continue_backtest = false) :
    (tickSym mk acc s).continue_backtest = false := by
  unfold tickSym
  cases hd : acc.symbol_data s with
  | nil => rfl
  | cons p rest => cases p with | mk t r => exact h

/-- tickSym preserves emptiness of any symbol's remaining data. -/
theorem tickSym_empty_preserved (mk : Symbol → Nat → Row → Bar) (acc : DHState)
    (s s2 : Symbol) (h : acc.symbol_data s2 = []) :
    (tickSym mk acc s).symbol_data s2 = [] := by
  unfold tickSym
  cases hd : acc.symbol_data s with
  | nil => exact h
  | cons p rest =>
    cases p with | mk t r =>
    by_cases he : s2 = s
    · subst he
      rw [h] at hd
      exact absurd hd (by simp)
    · simpa [he] using h

/-- tickSym on a symbol with exhausted data clears continue_backtest. -/
theorem tickSym_cont_of_empty (mk : Symbol → Nat → Row → Bar) (acc : DHState) (s : Symbol)
    (h : acc.symbol_data s = []) :
    (tickSym mk acc s).continue_backtest = false := by
  unfold tickSym
  rw [h]

/-- tickSym consumes exactly the head of its own symbol's remaining data. -/
theorem tickSym_self_data (mk : Symbol → Nat → Row → Bar) (acc : DHState) (s : Symbol) :
    (tickSym mk acc s).symbol_data s = (acc.symbol_data s).tail := by
  unfold tickSym
  cases hd : acc.symbol_data s with
  | nil => exact hd
  | cons p rest => cases p with | mk t r => simp

/-- tickSym appends exactly headBar of its own symbol's remaining data
to that symbol's buffer. -/
theorem tickSym_self_latest (mk : Symbol → Nat → Row → Bar) (acc : DHState) (s : Symbol) :
    (tickSym mk acc s).latest_symbol_data s
      = acc.latest_symbol_data s ++ headBar mk s (acc.symbol_data s) := by
  unfold tickSym
  cases hd : acc.symbol_data s with
  | nil => simp [headBar]
  | cons p rest => cases p with | mk t r => simp [headBar]

/-- The update_bars loop leaves symbol_list unchanged. -/
theorem foldl_tickSym_symbol_list (mk : Symbol → Nat → Row → Bar) (L : List Symbol) :
    ∀ st : DHState, (L.foldl (tickSym mk) st).symbol_list = st.symbol_list := by
  induction L with
  | nil => intro st; rfl
  | cons a L ih =>
    intro st
    rw [List.foldl_cons, ih, tickSym_symbol_list]

/-- The update_bars loop leaves the event counter unchanged (the single
put happens after the loop). -/
theorem foldl_tickSym_events (mk : Symbol → Nat → Row → Bar) (L : List Symbol) :
    ∀ st : DHState, (L.foldl (tickSym mk) st).events = st.events := by
  induction L with
  | nil => intro st; rfl
  | cons a L ih =>
    intro st
    rw [List.foldl_cons, ih, tickSym_events]

/-- The loop does not touch the remaining data of a symbol outside L. -/
theorem foldl_tickSym_data_notmem (mk : Symbol → Nat → Row → Bar) (L : List Symbol) :
    ∀ st : DHState, ∀ s : Symbol, s ∉ L →
      (L.foldl (tickSym mk) st).symbol_data s = st.symbol_data s := by
  induction L with
  | nil => intro st s _; rfl
  | cons a L ih =>
    intro st s hs
    rw [List.foldl_cons, ih _ s (fun h => hs (List.mem_cons_of_mem a h)),
      tickSym_symbol_data_ne]
    intro h
    exact hs (h ▸ List.mem_cons_self a L)

/-- The loop does not touch the buffer of a symbol outside L. -/
theorem foldl_tickSym_latest_notmem (mk : Symbol → Nat → Row → Bar) (L : List Symbol) :
    ∀ st : DHState, ∀ s : Symbol, s ∉ L →
      (L.foldl (tickSym mk) st).latest_symbol_data s = st.latest_symbol_data s := by
  induction L with
  | nil => intro st s _; rfl
  | cons a L ih =>
    intro st s hs
    rw [List.foldl_cons, ih _ s (fun h => hs (List.mem_cons_of_mem a h)), tickSym_latest_ne]
    intro h
    exact hs (h ▸ List.mem_cons_self a L)

/-- The loop never resets continue_backtest to true. -/
theorem foldl_tickSym_cont_false (mk : Symbol → Nat → Row → Bar) (L : List Symbol) :
    ∀ st : DHState, st.continue_backtest = false →
      (L.foldl (tickSym mk) st).continue_backtest = false := by
  induction L with
  | nil => intro st h; exact h
  | cons a L ih =>
    intro st h
    rw [List.foldl_cons]
    exact ih _ (tickSym_cont_false mk st a h)

/-- The loop preserves emptiness of any symbol's remaining data. -/
theorem foldl_tickSym_empty_preserved (mk : Symbol → Nat → Row → Bar) (L : List Symbol) :
    ∀ st : DHState, ∀ s : Symbol, st.symbol_data s = [] →
      (L.foldl (tickSym mk) st).symbol_data s = [] := by
  induction L with
  | nil => intro st s h; exact h
  | cons a L ih =>
    intro st s h
    rw [List.foldl_cons]
    exact ih _ s (tickSym_empty_preserved mk st a s h)

/-- If some symbol of L enters the loop with exhausted data, the loop
leaves continue_backtest cleared. -/
theorem foldl_tickSym_cont_of_empty (mk : Symbol → Nat → Row → Bar) (L : List Symbol) :
    ∀ st : DHState, ∀ s : Symbol, s ∈ L → st.symbol_data s = [] →
      (L.foldl (tickSym mk) st).continue_backtest = false := by
  induction L with
  | nil => intro st s hs _; exact absurd hs (List.not_mem_nil s)
  | cons a L ih =>
    intro st s hs h
    rw [List.foldl_cons]
    rcases List.mem_cons.mp hs with he | hm
    · subst he
      exact foldl_tickSym_cont_false mk L _ (tickSym_cont_of_empty mk st s h)
    · exact ih _ s hm (tickSym_empty_preserved mk st a s h)

/-- For a duplicate-free loop list, each member symbol has exactly the
head of its remaining data consumed and appended (as a bar) to its
buffer by the loop. -/
theorem foldl_tickSym_mem (mk : Symbol → Nat → Row → Bar) (L : List Symbol) :
    ∀ st : DHState, L.Nodup → ∀ s : Symbol, s ∈ L →
      (L.foldl (tickSym mk) st).symbol_data s = (st.symbol_data s).tail ∧
      (L.foldl (tickSym mk) st).latest_symbol_data s
        = st.latest_symbol_data s ++ headBar mk s (st.symbol_data s) := by
  induction L with
  | nil => intro st _ s hs; exact absurd hs (List.not_mem_nil s)
  | cons a L ih =>
    intro st hnd s hs
    have hal : a ∉ L := (List.nodup_cons.mp hnd).1
    have hLnd : L.Nodup := (List.nodup_cons.mp hnd).2
    rw [List.foldl_cons]
    rcases List.mem_cons.mp hs with he | hm
    · subst he
      constructor
      · rw [foldl_tickSym_data_notmem mk L _ s hal, tickSym_self_data]
      · rw [foldl_tickSym_latest_notmem mk L _ s hal, tickSym_self_latest]
    · have hne : s ≠ a := fun h => hal (h ▸ hm)
      have h1 := (ih (tickSym mk st a) hLnd s hm).1
      have h2 := (ih (tickSym mk st a) hLnd s hm).2
      rw [tickSym_symbol_data_ne mk st a s hne] at h1
      rw [tickSym_latest_ne mk st a s hne, tickSym_symbol_data_ne mk st a s hne] at h2
      exact ⟨h1, h2⟩

/-- update_bars leaves symbol_list unchanged. -/
theorem update_bars_symbol_list (mk : Symbol → Nat → Row → Bar) (st : DHState) :
    (update_bars mk st).symbol_list = st.symbol_list := by
  simp only [update_bars]
  exact foldl_tickSym_symbol_list mk st.symbol_list st

/-- update_bars puts exactly one MarketEvent per call, unconditionally. -/
theorem update_bars_events (mk : Symbol → Nat → Row → Bar) (st : DHState) :
    (update_bars mk st).events = st.events + 1 := by
  simp only [update_bars]
  rw [foldl_tickSym_events mk st.symbol_list st]

/-- update_bars never resets continue_backtest to true. -/
theorem update_bars_cont_false (mk : Symbol → Nat → Row → Bar) (st : DHState)
    (h : st.continue_backtest = false) :
    (update_bars mk st).continue_backtest = false := by
  simp only [update_bars]
  exact foldl_tickSym_cont_false mk st.symbol_list st h

/-- update_bars clears continue_backtest whenever any configured
symbol's remaining data is already exhausted. -/
theorem update_bars_cont_of_empty (mk : Symbol → Nat → Row → Bar) (st : DHState)
    (s : Symbol) (hs : s ∈ st.symbol_list) (h : st.symbol_data s = []) :
    (update_bars mk st).continue_backtest = false := by
  simp only [update_bars]
  exact foldl_tickSym_cont_of_empty mk st.symbol_list st s hs h

/-- With a duplicate-free symbol_list, one update_bars call consumes
exactly the head of a configured symbol's remaining data. -/
theorem update_bars_data_mem (mk : Symbol → Nat → Row → Bar) (st : DHState)
    (hnd : st.symbol_list.Nodup) (s : Symbol) (hs : s ∈ st.symbol_list) :
    (update_bars mk st).symbol_data s = (st.symbol_data s).tail := by
  simp only [update_bars]
  exact (foldl_tickSym_mem mk st.symbol_list st hnd s hs).1

/-- With a duplicate-free symbol_list, one update_bars call extends a
configured symbol's buffer by exactly headBar of its remaining data. -/
theorem update_bars_latest_mem (mk : Symbol → Nat → Row → Bar) (st : DHState)
    (hnd : st.symbol_list.Nodup) (s : Symbol) (hs : s ∈ st.symbol_list) :
    (update_bars mk st).latest_symbol_data s
      = st.latest_symbol_data s ++ headBar mk s (st.symbol_data s) := by
  simp only [update_bars]
  exact (foldl_tickSym_mem mk st.symbol_list st hnd s hs).2

/-- After n update_bars calls, a configured symbol's buffer has gained
the bars of the first n entries of its remaining data, and its remaining
data has lost them. -/
theorem iterate_update_bars (mk : Symbol → Nat → Row → Bar) (n : Nat) :
    ∀ st : DHState, st.symbol_list.Nodup → ∀ s : Symbol, s ∈ st.symbol_list →
      ((update_bars mk)^[n] st).latest_symbol_data s
        = st.latest_symbol_data s ++ ((st.symbol_data s).take n).map (fun p => mk s p.1 p.2) ∧
      ((update_bars mk)^[n] st).symbol_data s = (st.symbol_data s).drop n := by
  induction n with
  | zero => intro st _ s _; simp
  | succ n ih =>
    intro st hnd s hs
    rw [Function.iterate_succ_apply]
    have hnd1 : (update_bars mk st).symbol_list.Nodup := by
      rw [update_bars_symbol_list]; exact hnd
    have hs1 : s ∈ (update_bars mk st).symbol_list := by
      rw [update_bars_symbol_list]; exact hs
    have h1 := (ih (update_bars mk st) hnd1 s hs1).1
    have h2 := (ih (update_bars mk st) hnd1 s hs1).2
    rw [update_bars_latest_mem mk st hnd s hs, update_bars_data_mem mk st hnd s hs] at h1
    rw [update_bars_data_mem mk st hnd s hs] at h2
    cases hd : st.symbol_data s with
    | nil =>
      rw [hd] at h1 h2
      simp only [headBar, List.tail_nil, List.take_nil, List.map_nil, List.append_nil] at h1 h2
      simp [h1, h2]
    | cons p rest =>
      cases p with | mk t r =>
      rw [hd] at h1 h2
      simp only [headBar, List.tail_cons] at h1 h2
      constructor
      · rw [h1, List.append_assoc]
        simp
      · rw [h2]
        simp

/-- The two-symbol scenario of claim C1: symbol A has raw dates {2, 4}
(standing for 01/02 and 01/04), symbol B has raw dates {2, 3}. -/
def rawC1 : Symbol → List (Nat × Row) :=
  fun s =>
    if s = "A" then
      [(2, [some 10, some 11, some 12, some 13, some 14, some 15]),
       (4, [some 40, some 41, some 42, some 43, some 44, some 45])]
    else if s = "B" then
      [(2, [some 20, some 21, some 22, some 23, some 24, some 25]),
       (3, [some 30, some 31, some 32, some 33, some 34, some 35])]
    else []

/-- C1: the claim asserts that after construction of either backend the
shared calendar is the sorted union of all symbols' raw timestamps, here
{2, 3, 4}.  Evaluating the code at this input: the calendar combIndex is
[2, 4], the first symbol's raw index, because the result of
comb_index.union(...) is discarded (data.py 105 and 269, contradicting
the adjacent comment "Combine the index to pad forward values"), and
symbol B is reindexed onto that narrower calendar, so B's series has no
entry at its own raw date 3 and its value at 4 forward-fills from the
raw 3-row.  Both backends share this construction, so the claimed
calendar [2, 3, 4] is produced by neither. -/
theorem c1_calendar_union_discarded :
    combIndex ["A", "B"] rawC1 = [2, 4] ∧
    unionCalendarSpec ["A", "B"] rawC1 = [2, 3, 4] ∧
    combIndex ["A", "B"] rawC1 ≠ unionCalendarSpec ["A", "B"] rawC1 ∧
    (csvInit 0 ["A", "B"] rawC1).symbol_data "B"
      = [(2, [some 20, some 21, some 22, some 23, some 24, some 25]),
         (4, [some 30, some 31, some 32, some 33, some 34, some 35])] ∧
    (sqlInit 0 ["A", "B"] rawC1).symbol_data "B"
      = (csvInit 0 ["A", "B"] rawC1).symbol_data "B" := by
  refine ⟨by decide, by decide, by decide, by decide, rfl⟩

/-- A handler state whose single configured symbol's aligned series has
been fully consumed (the exhausted case of claim C2). -/
def stC2 : DHState :=
  { symbol_list := ["A"]
    symbol_data := fun _ => []
    latest_symbol_data := fun _ => []
    continue_backtest := true
    events := 0 }

/-- C2 counterexample: with the source exhausted (configured symbol "A"
has no undelivered bar), update_bars still enqueues one MarketEvent,
because self.events.put(MarketEvent()) sits after the loop and runs
unconditionally (data.py 151 and 347); the claim says an exhausted call
enqueues no event. -/
theorem c2_exhausted_still_enqueues :
    stC2.symbol_data "A" = [] ∧ "A" ∈ stC2.symbol_list ∧
    (update_bars csvMkBar stC2).continue_backtest = false ∧
    (update_bars csvMkBar stC2).events = stC2.events + 1 := by decide

/-- C2 amended: every update_bars call, on either backend, enqueues
exactly one MarketEvent — also when the source is exhausted; if any
configured symbol's series is consumed at the time of the call the call
clears continue_backtest, and a cleared flag is never set back to
true.  (Handler-level terminality of events does not hold: stopping
relies on the driver not calling update_bars once the flag is false.) -/
theorem c2_amended_one_event_per_call (mk : Symbol → Nat → Row → Bar) (st : DHState) :
    (update_bars mk st).events = st.events + 1 ∧
    ((∃ s, s ∈ st.symbol_list ∧ st.symbol_data s = []) →
      (update_bars mk st).continue_backtest = false) ∧
    (st.continue_backtest = false → (update_bars mk st).continue_backtest = false) := by
  refine ⟨update_bars_events mk st, ?_, update_bars_cont_false mk st⟩
  rintro ⟨s, hs, h⟩
  exact update_bars_cont_of_empty mk st s hs h

/-- An exhausted handler state with the continuation flag already
cleared, used to instantiate the amended C2 theorem. -/
def stC2w : DHState :=
  { symbol_list := ["B"]
    symbol_data := fun _ => []
    latest_symbol_data := fun _ => []
    continue_backtest := false
    events := 5 }

/-- Witness for the amended C2 theorem at a concrete exhausted state. -/
theorem c2_amended_one_event_per_call_witness :
    (update_bars csvMkBar stC2w).events = stC2w.events + 1 ∧
    (update_bars csvMkBar stC2w).continue_backtest = false ∧
    (update_bars csvMkBar stC2w).continue_backtest = false :=
  ⟨(c2_amended_one_event_per_call csvMkBar stC2w).1,
   (c2_amended_one_event_per_call csvMkBar stC2w).2.1 ⟨"B", by decide, rfl⟩,
   (c2_amended_one_event_per_call csvMkBar stC2w).2.2 rfl⟩

/-- First delivered bar of the C3 buffer scenario. -/
def barC3a : Bar := csvMkBar "A" 2 [some 1, some 2, some 3, some 4, some 5, some 6]

/-- Second delivered bar of the C3 buffer scenario. -/
def barC3b : Bar := csvMkBar "A" 3 [some 7, some 8, some 9, some 10, some 11, some 12]

/-- A CSV-handler state whose symbol A has two delivered bars in its
buffer. -/
def stC3 : DHState :=
  { symbol_list := ["A"]
    symbol_data := fun _ => []
    latest_symbol_data := fun s => if s = "A" then [barC3a, barC3b] else []
    continue_backtest := true
    events := 0 }

/-- C3 counterexample: get_latest_bars("A", 0) on a 2-bar buffer returns
the whole buffer, not the empty sequence of min(0, 2) = 0 elements the
claim demands: bars_list[-0:] is bars_list[0:], since -0 == 0 in
Python (data.py 136). -/
theorem c3_n_zero_returns_whole_buffer :
    csv_get_latest_bars stC3 "A" 0 = some [barC3a, barC3b] ∧
    [barC3a, barC3b] ≠ ([] : List Bar) := by decide

/-- C3 amended: for every configured symbol, the file backend's
get_latest_bars with N ≥ 1 returns the last min(N, buffer length)
delivered bars, a suffix of the buffer and hence in chronological
(append) order; with N = 0 it returns the entire buffer, not the empty
sequence; on an empty buffer it returns the empty sequence for every N
(and never an error). -/
theorem c3_amended_get_latest_bars (st : DHState) (s : Symbol) (N : Nat)
    (hs : s ∈ st.symbol_list) :
    (1 ≤ N → csv_get_latest_bars st s N = some (lastN (st.latest_symbol_data s) N) ∧
      (lastN (st.latest_symbol_data s) N).length = min N (st.latest_symbol_data s).length ∧
      (st.latest_symbol_data s).take ((st.latest_symbol_data s).length - N)
        ++ lastN (st.latest_symbol_data s) N = st.latest_symbol_data s) ∧
    (N = 0 → csv_get_latest_bars st s N = some (st.latest_symbol_data s)) ∧
    (st.latest_symbol_data s = [] → csv_get_latest_bars st s N = some []) := by
  constructor
  · intro hN
    have hNne : N ≠ 0 := Nat.one_le_iff_ne_zero.mp hN
    refine ⟨?_, ?_, ?_⟩
    · simp [csv_get_latest_bars, hs, pySliceLast, lastN, hNne]
    · simp only [lastN, List.length_drop]
      omega
    · exact List.take_append_drop _ _
  constructor
  · intro h0
    subst h0
    simp [csv_get_latest_bars, hs, pySliceLast]
  · intro he
    simp [csv_get_latest_bars, hs, pySliceLast, he]

/-- Witness for the amended C3 theorem: at the concrete 2-bar state,
N = 1 returns the last bar and N = 0 returns the whole buffer. -/
theorem c3_amended_get_latest_bars_witness :
    csv_get_latest_bars stC3 "A" 1 = some (lastN (stC3.latest_symbol_data "A") 1) ∧
    csv_get_latest_bars stC3 "A" 0 = some (stC3.latest_symbol_data "A") :=
  ⟨((c3_amended_get_latest_bars stC3 "A" 1 (by decide)).1 (by decide)).1,
   (c3_amended_get_latest_bars stC3 "A" 0 (by decide)).2.1 rfl⟩

/-- C4: on either backend, update_bars clears continue_backtest as soon
as any one configured symbol's series is consumed, even while other
symbols still have remaining bars; on that same call every configured
symbol whose series still has a next entry gets that entry appended to
its buffer as a bar (data.py 143-150 and 339-346: the StopIteration
branch only flags the end, it does not break the loop). -/
theorem c4_any_symbol_exhausts_flag (mk : Symbol → Nat → Row → Bar) (st : DHState)
    (hnd : st.symbol_list.Nodup) (s0 : Symbol) (hs0 : s0 ∈ st.symbol_list)
    (h0 : st.symbol_data s0 = []) :
    (update_bars mk st).continue_backtest = false ∧
    ∀ s, s ∈ st.symbol_list → ∀ t r rest, st.symbol_data s = (t, r) :: rest →
      (update_bars mk st).latest_symbol_data s = st.latest_symbol_data s ++ [mk s t r] := by
  refine ⟨update_bars_cont_of_empty mk st s0 hs0 h0, ?_⟩
  intro s hs t r rest hd
  rw [update_bars_latest_mem mk st hnd s hs, hd]
  rfl

/-- The single remaining row of symbol B in the C4 witness state. -/
def rowC4 : Row := [some 1, some 2, some 3, some 4, some 5, some 6]

/-- A two-symbol state where A is already consumed while B still has one
remaining aligned entry. -/
def stC4 : DHState :=
  { symbol_list := ["A", "B"]
    symbol_data := fun s => if s = "B" then [(5, rowC4)] else []
    latest_symbol_data := fun _ => []
    continue_backtest := true
    events := 0 }

/-- Witness for the C4 theorem: with A consumed and B not, one call
clears the flag and still appends B's next bar. -/
theorem c4_any_symbol_exhausts_flag_witness :
    (update_bars csvMkBar stC4).continue_backtest = false ∧
    (update_bars csvMkBar stC4).latest_symbol_data "B"
      = stC4.latest_symbol_data "B" ++ [csvMkBar "B" 5 rowC4] :=
  ⟨(c4_any_symbol_exhausts_flag csvMkBar stC4 (by decide) "A" (by decide) (by decide)).1,
   (c4_any_symbol_exhausts_flag csvMkBar stC4 (by decide) "A" (by decide) (by decide)).2
     "B" (by decide) 5 rowC4 [] (by decide)⟩

/-- C5: the two backends diverge on empty-buffer and unknown-symbol
queries and both behaviors hold simultaneously: the file backend's
get_latest_bars on a configured symbol with an empty buffer returns the
empty sequence (data.py 136), while the store backend's get_latest_bars,
get_latest_bar and get_latest_bar_datetime raise the NotInitialized
KeyError on a configured symbol with an empty buffer and the
SymbolNotFound KeyError on an unconfigured symbol (data.py 291-332). -/
theorem c5_backend_divergence (stC stS : DHState) (s u : Symbol) (N M : Nat)
    (hsC : s ∈ stC.symbol_list) (hC : stC.latest_symbol_data s = [])
    (hsS : s ∈ stS.symbol_list) (hS : stS.latest_symbol_data s = [])
    (hu : u ∉ stS.symbol_list) :
    csv_get_latest_bars stC s N = some [] ∧
    sql_get_latest_bars stS s M = .error .NotInitialized ∧
    sql_get_latest_bar stS s = .error .NotInitialized ∧
    sql_get_latest_bar_datetime stS s = .error .NotInitialized ∧
    sql_get_latest_bars stS u M = .error .SymbolNotFound ∧
    sql_get_latest_bar stS u = .error .SymbolNotFound ∧
    sql_get_latest_bar_datetime stS u = .error .SymbolNotFound := by
  refine ⟨?_, ?_, ?_, ?_, ?_, ?_, ?_⟩
  · simp [csv_get_latest_bars, hsC, pySliceLast, hC]
  · simp [sql_get_latest_bars, hsS, hS]
  · simp [sql_get_latest_bar, hsS, hS]
  · simp [sql_get_latest_bar_datetime, hsS, hS]
  · simp [sql_get_latest_bars, hu]
  · simp [sql_get_latest_bar, hu]
  · simp [sql_get_latest_bar_datetime, hu]

/-- A freshly constructed file-backend state (no bar delivered yet). -/
def stC5csv : DHState :=
  { symbol_list := ["A"]
    symbol_data := fun _ => []
    latest_symbol_data := fun _ => []
    continue_backtest := true
    events := 0 }

/-- A freshly constructed store-backend state (no bar delivered yet). -/
def stC5sql : DHState :=
  { symbol_list := ["A"]
    symbol_data := fun _ => []
    latest_symbol_data := fun _ => []
    continue_backtest := true
    events := 0 }

/-- Witness for the C5 theorem at concrete pre-first-tick states, with
configured symbol "A" and unknown symbol "Z". -/
theorem c5_backend_divergence_witness :
    csv_get_latest_bars stC5csv "A" 1 = some [] ∧
    sql_get_latest_bars stC5sql "A" 1 = .error .NotInitialized ∧
    sql_get_latest_bar stC5sql "A" = .error .NotInitialized ∧
    sql_get_latest_bar_datetime stC5sql "A" = .error .NotInitialized ∧
    sql_get_latest_bars stC5sql "Z" 1 = .error .SymbolNotFound ∧
    sql_get_latest_bar stC5sql "Z" = .error .SymbolNotFound ∧
    sql_get_latest_bar_datetime stC5sql "Z" = .error .SymbolNotFound :=
  c5_backend_divergence stC5csv stC5sql "A" "Z" 1 1
    (by decide) rfl (by decide) rfl (by decide)

/-- C6: a bar built by the CSV handler from an input row with column
order (datetime, open, low, high, close, volume, oi) carries the input's
4th column 'high' in its high slot and the input's 3rd column 'low' in
its low slot — and likewise for open, close and volume: the positional
copies b[1][0]..b[1][4] (data.py 123-124) land on the correct input
columns.  (The handler's own tuple keeps low before high, matching the
input order, per its docstring at data.py 117-118.) -/
theorem c6_csv_high_low_routed (s : Symbol) (t : Nat) (r : Row) :
    (csvMkBar s t r).csvHighVal = csvHighCol r ∧
    (csvMkBar s t r).csvLowVal = csvLowCol r ∧
    (csvMkBar s t r).csvOpenVal = csvOpenCol r ∧
    (csvMkBar s t r).csvCloseVal = csvCloseCol r ∧
    (csvMkBar s t r).csvVolumeVal = csvVolumeCol r :=
  ⟨rfl, rfl, rfl, rfl, rfl⟩

/-- C7: on either backend, one update_bars call extends a configured
symbol's buffer exactly by headBar of its remaining series: the old
buffer is a prefix of the new one (nothing is modified, removed or
reordered), the length never decreases and grows by at most one, and by
exactly one whenever the symbol still has an undelivered entry.  Since
this holds at every state, it holds at every step of any sequence of
update_bars calls. -/
theorem c7_buffer_append_only (mk : Symbol → Nat → Row → Bar) (st : DHState)
    (hnd : st.symbol_list.Nodup) (s : Symbol) (hs : s ∈ st.symbol_list) :
    (update_bars mk st).latest_symbol_data s
      = st.latest_symbol_data s ++ headBar mk s (st.symbol_data s) ∧
    (st.latest_symbol_data s).length ≤ ((update_bars mk st).latest_symbol_data s).length ∧
    ((update_bars mk st).latest_symbol_data s).length ≤ (st.latest_symbol_data s).length + 1 ∧
    (st.symbol_data s ≠ [] →
      ((update_bars mk st).latest_symbol_data s).length
        = (st.latest_symbol_data s).length + 1) := by
  have h := update_bars_latest_mem mk st hnd s hs
  refine ⟨h, ?_, ?_, ?_⟩
  · rw [h]
    simp
  · rw [h, List.length_append]
    cases hd : st.symbol_data s with
    | nil => simp [headBar]
    | cons p rest => cases p with | mk t r => simp [headBar]
  · intro hne
    rw [h, List.length_append]
    cases hd : st.symbol_data s with
    | nil => exact absurd hd hne
    | cons p rest => cases p with | mk t r => simp [headBar]

/-- The single remaining row of the C7 witness state. -/
def rowC7 : Row := [some 9, some 8, some 7, some 6, some 5, some 4]

/-- A one-symbol state with one remaining aligned entry. -/
def stC7 : DHState :=
  { symbol_list := ["A"]
    symbol_data := fun _ => [(1, rowC7)]
    latest_symbol_data := fun _ => []
    continue_backtest := true
    events := 0 }

/-- Witness for the C7 theorem at a concrete one-entry state, with the
exactly-one-growth hypothesis discharged. -/
theorem c7_buffer_append_only_witness :
    (update_bars csvMkBar stC7).latest_symbol_data "A"
      = stC7.latest_symbol_data "A" ++ headBar csvMkBar "A" (stC7.symbol_data "A") ∧
    (stC7.latest_symbol_data "A").length
      ≤ ((update_bars csvMkBar stC7).latest_symbol_data "A").length ∧
    ((update_bars csvMkBar stC7).latest_symbol_data "A").length
      ≤ (stC7.latest_symbol_data "A").length + 1 ∧
    ((update_bars csvMkBar stC7).latest_symbol_data "A").length
      = (stC7.latest_symbol_data "A").length + 1 :=
  ⟨(c7_buffer_append_only csvMkBar stC7 (by decide) "A" (by decide)).1,
   (c7_buffer_append_only csvMkBar stC7 (by decide) "A" (by decide)).2.1,
   (c7_buffer_append_only csvMkBar stC7 (by decide) "A" (by decide)).2.2.1,
   (c7_buffer_append_only csvMkBar stC7 (by decide) "A" (by decide)).2.2.2 (by decide)⟩

/-- C8: for every symbol of the store backend, the retained aligned copy
all_data_dic[symbol] holds exactly the rows, in the same order, that
successive update_bars calls deliver from that symbol's one-shot
iterrows cursor: after as many calls as the copy has rows, the buffer is
the row-by-row image of the copy under _get_new_bar, whose bar carries
the row's timestamp and its open, high, low, close and volume columns
(positions 0..4; the 6th column price_change is not part of the bar). -/
theorem c8_sql_retained_matches_delivered (events0 : Nat) (symbol_list : List Symbol)
    (raw : Symbol → List (Nat × Row)) (hnd : symbol_list.Nodup)
    (s : Symbol) (hs : s ∈ symbol_list) :
    (sqlInit events0 symbol_list raw).symbol_data s = sql_all_data_dic symbol_list raw s ∧
    ((update_bars sqlMkBar)^[(sql_all_data_dic symbol_list raw s).length]
        (sqlInit events0 symbol_list raw)).latest_symbol_data s
      = (sql_all_data_dic symbol_list raw s).map (fun p => sqlMkBar s p.1 p.2) ∧
    ∀ t r, (sqlMkBar s t r).datetime = t ∧ (sqlMkBar s t r).p2 = sqlOpenCol r ∧
      (sqlMkBar s t r).p3 = sqlHighCol r ∧ (sqlMkBar s t r).p4 = sqlLowCol r ∧
      (sqlMkBar s t r).p5 = sqlCloseCol r ∧ (sqlMkBar s t r).p6 = sqlVolumeCol r := by
  have hdata : (sqlInit events0 symbol_list raw).symbol_data s
      = sql_all_data_dic symbol_list raw s := rfl
  refine ⟨hdata, ?_, fun t r => ⟨rfl, rfl, rfl, rfl, rfl, rfl⟩⟩
  have hnd2 : (sqlInit events0 symbol_list raw).symbol_list.Nodup := hnd
  have hs2 : s ∈ (sqlInit events0 symbol_list raw).symbol_list := hs
  have h := (iterate_update_bars sqlMkBar (sql_all_data_dic symbol_list raw s).length
    (sqlInit events0 symbol_list raw) hnd2 s hs2).1
  rw [hdata] at h
  simpa [sqlInit, List.take_length] using h

/-- A one-symbol store-backend input with two raw rows, for the C8
witness. -/
def rawC8 : Symbol → List (Nat × Row) :=
  fun s =>
    if s = "A" then
      [(1, [some 1, some 2, some 3, some 4, some 5, some 6]),
       (2, [some 7, some 8, some 9, some 10, some 11, some 12])]
    else []

/-- Witness for the C8 theorem on a concrete two-row store backend, with
the per-row field correspondence instantiated at a concrete row. -/
theorem c8_sql_retained_matches_delivered_witness :
    (sqlInit 0 ["A"] rawC8).symbol_data "A" = sql_all_data_dic ["A"] rawC8 "A" ∧
    ((update_bars sqlMkBar)^[(sql_all_data_dic ["A"] rawC8 "A").length]
        (sqlInit 0 ["A"] rawC8)).latest_symbol_data "A"
      = (sql_all_data_dic ["A"] rawC8 "A").map (fun p => sqlMkBar "A" p.1 p.2) ∧
    ((sqlMkBar "A" 9 [some 1, some 2, some 3, some 4, some 5, some 6]).datetime = 9 ∧
      (sqlMkBar "A" 9 [some 1, some 2, some 3, some 4, some 5, some 6]).p2
        = sqlOpenCol [some 1, some 2, some 3, some 4, some 5, some 6] ∧
      (sqlMkBar "A" 9 [some 1, some 2, some 3, some 4, some 5, some 6]).p3
        = sqlHighCol [some 1, some 2, some 3, some 4, some 5, some 6] ∧
      (sqlMkBar "A" 9 [some 1, some 2, some 3, some 4, some 5, some 6]).p4
        = sqlLowCol [some 1, some 2, some 3, some 4, some 5, some 6] ∧
      (sqlMkBar "A" 9 [some 1, some 2, some 3, some 4, some 5, some 6]).p5
        = sqlCloseCol [some 1, some 2, some 3, some 4, some 5, some 6] ∧
      (sqlMkBar "A" 9 [some 1, some 2, some 3, some 4, some 5, some 6]).p6
        = sqlVolumeCol [some 1, some 2, some 3, some 4, some 5, some 6]) :=
  ⟨(c8_sql_retained_matches_delivered 0 ["A"] rawC8 (by decide) "A" (by decide)).1,
   (c8_sql_retained_matches_delivered 0 ["A"] rawC8 (by decide) "A" (by decide)).2.1,
   (c8_sql_retained_matches_delivered 0 ["A"] rawC8 (by decide) "A" (by decide)).2.2
     9 [some 1, some 2, some 3, some 4, some 5, some 6]⟩

/-- C9: once continue_backtest is false it remains false after any
further update_bars call — no operation ever assigns it True (the query
methods never touch it and are pure reads in this embedding) — yet such
a call is not a no-op at the data-handler level: it still appends the
next bar for every configured symbol whose aligned series has entries
remaining and still enqueues one more MarketEvent. -/
theorem c9_flag_terminal_ticks_proceed (mk : Symbol → Nat → Row → Bar) (st : DHState)
    (hc : st.continue_backtest = false) (hnd : st.symbol_list.Nodup) :
    (update_bars mk st).continue_backtest = false ∧
    (update_bars mk st).events = st.events + 1 ∧
    ∀ s, s ∈ st.symbol_list → ∀ t r rest, st.symbol_data s = (t, r) :: rest →
      (update_bars mk st).latest_symbol_data s = st.latest_symbol_data s ++ [mk s t r] := by
  refine ⟨update_bars_cont_false mk st hc, update_bars_events mk st, ?_⟩
  intro s hs t r rest hd
  rw [update_bars_latest_mem mk st hnd s hs, hd]
  rfl

/-- The single remaining row of the C9 witness state. -/
def rowC9 : Row := [some 2, some 3, some 4, some 5, some 6, some 7]

/-- A state whose continuation flag is already false while its symbol
still has one remaining aligned entry. -/
def stC9 : DHState :=
  { symbol_list := ["A"]
    symbol_data := fun _ => [(7, rowC9)]
    latest_symbol_data := fun _ => []
    continue_backtest := false
    events := 3 }

/-- Witness for the C9 theorem: at a concrete stopped-but-nonempty
state, the flag stays false, one more event is enqueued, and the next
bar is still delivered. -/
theorem c9_flag_terminal_ticks_proceed_witness :
    (update_bars csvMkBar stC9).continue_backtest = false ∧
    (update_bars csvMkBar stC9).events = stC9.events + 1 ∧
    (update_bars csvMkBar stC9).latest_symbol_data "A"
      = stC9.latest_symbol_data "A" ++ [csvMkBar "A" 7 rowC9] :=
  ⟨(c9_flag_terminal_ticks_proceed csvMkBar stC9 rfl (by decide)).1,
   (c9_flag_terminal_ticks_proceed csvMkBar stC9 rfl (by decide)).2.1,
   (c9_flag_terminal_ticks_proceed csvMkBar stC9 rfl (by decide)).2.2
     "A" (by decide) 7 rowC9 [] (by decide)⟩

/-- C10: the file backend's get_latest_bars on a symbol outside
symbol_list returns None (the KeyError handler at data.py 131-134 prints
a diagnostic and falls through without returning a value), not an
exception and not an empty sequence; a configured symbol with an empty
buffer yields the empty list instead, so a caller — e.g.
BuyAndHoldStrategy.calculate_signals (src/bhs.py 63-64), which tests
both `bars is not None` and `bars != []` — must distinguish the two. -/
theorem c10_unknown_symbol_returns_none (st : DHState) (u s : Symbol) (N M : Nat)
    (hu : u ∉ st.symbol_list) (hs : s ∈ st.symbol_list) :
    csv_get_latest_bars st u N = none ∧
    csv_get_latest_bars st u N ≠ some [] ∧
    (st.latest_symbol_data s = [] → csv_get_latest_bars st s M = some []) := by
  have h1 : csv_get_latest_bars st u N = none := by simp [csv_get_latest_bars, hu]
  refine ⟨h1, ?_, ?_⟩
  · rw [h1]
    simp
  · intro he
    simp [csv_get_latest_bars, hs, pySliceLast, he]

/-- A freshly constructed file-backend state whose only configured
symbol is "A", for the C10 witness. -/
def stC10 : DHState :=
  { symbol_list := ["A"]
    symbol_data := fun _ => []
    latest_symbol_data := fun _ => []
    continue_backtest := true
    events := 0 }

/-- Witness for the C10 theorem: the unknown symbol "Z" yields none, the
configured-but-empty symbol "A" yields the empty list. -/
theorem c10_unknown_symbol_returns_none_witness :
    csv_get_latest_bars stC10 "Z" 1 = none ∧
    csv_get_latest_bars stC10 "Z" 1 ≠ some [] ∧
    csv_get_latest_bars stC10 "A" 1 = some [] :=
  ⟨(c10_unknown_symbol_returns_none stC10 "Z" "A" 1 1 (by decide) (by decide)).1,
   (c10_unknown_symbol_returns_none stC10 "Z" "A" 1 1 (by decide) (by decide)).2.1,
   (c10_unknown_symbol_returns_none stC10 "Z" "A" 1 1 (by decide) (by decide)).2.2 rfl⟩

end Backtester
